import Mathlib

/-!
Verification development for the phevere selection-listener core.

The repository contains two draft crates:
  * src/native/native        — trait SelectionListener + SelectionError in platform/mod.rs,
                               a macOS observer (platform/macos.rs) and fragmentary
                               windows/linux drafts;
  * src/rust-native          — a second macOS observer and a Windows observer.

This file gives a shallow embedding of the listener state machines.  OS calls
(accessibility trust check, CGEventTap creation, CFRunLoop bookkeeping, COM
initialization) are abstracted as boolean oracles in an environment record;
run loops are tracked per thread id; the mutex-guarded selection slot is an
Option String field.  The concurrency claim about the mutex is settled over a
small interleaving transition system (namespace SharedState) in which the
store of an Option String is split into its discriminant and payload parts so
that a torn read is expressible.
-/

/-- SelectionError, from src/native/native/src/platform/mod.rs (the rust-native
crate's platform module declaration is not among the sources, but its files
reference the same constructor names). -/
inductive SelectionError
  | InitializationFailure (msg : String)
  | MonitoringError (msg : String)
  | UnsupportedAction
deriving DecidableEq

/-- Thread identifiers; each thread owns one CFRunLoop. -/
abbrev ThreadId := Nat

/-- Pointwise update of a per-thread flag map. -/
def setLoop (f : ThreadId → Bool) (t : ThreadId) (b : Bool) : ThreadId → Bool :=
  fun u => if u = t then b else f u

/-- Pointwise update of a Nat-valued map (used for reader program counters). -/
def updNat (f : Nat → Nat) (i v : Nat) : Nat → Nat :=
  fun u => if u = i then v else f u

/-- Outcome of the two accessibility queries made by the capture callback for
one tapped event: the return code and out-pointer nullness of the
AXFocusedUIElement query, those of the AXSelectedText query, and the text the
latter yields when it succeeds. -/
structure AXEvent where
  focusedCode : Int
  focusedNull : Bool
  selCode : Int
  selNull : Bool
  selText : String
deriving DecidableEq

/-- get_selected_text from src/rust-native/src/platform/macos.rs lines 91-122:
returns None when the focused-element query fails (nonzero code or null out
value), then None when the selected-text query fails, otherwise the text. -/
def get_selected_text (ev : AXEvent) : Option String :=
  if ev.focusedCode != 0 || ev.focusedNull then none
  else if ev.selCode != 0 || ev.selNull then none
  else some ev.selText

/-- Both queries succeeded: zero return codes and non-null out values. -/
def captureOk (ev : AXEvent) : Bool :=
  (ev.focusedCode == 0) && !ev.focusedNull && (ev.selCode == 0) && !ev.selNull

/-- Event-tap callback of src/rust-native/src/platform/macos.rs lines 50-55:
writes the captured text into the shared slot only when get_selected_text
returned Some; otherwise the slot keeps its previous value. -/
def rustTapCallback (ev : AXEvent) (st : Option String) : Option String :=
  match get_selected_text ev with
  | some text => some text
  | none => st

/-- Event-tap callback of src/native/native/src/platform/macos.rs lines 72-121:
the focused-element query yields Ok iff code 0 and non-null; only then is the
selected-text query made, which yields Ok iff code 0 and non-null; only on Ok
is the slot written.  The Err values are constructed and dropped; the callback
returns None (does not modify the original event). -/
def nativeTapCallback (ev : AXEvent) (st : Option String) : Option String :=
  if ev.focusedCode == 0 && !ev.focusedNull then
    if ev.selCode == 0 && !ev.selNull then some ev.selText
    else st
  else st

/-- Oracle for the OS calls made by the native-variant macOS start. -/
structure MacEnv where
  trusted : Bool
  tapCreateOk : Bool
deriving DecidableEq

namespace Native

/-- MacOSListener of src/native/native/src/platform/macos.rs together with the
process-level facts its OS calls manipulate: selected_text and the event_tap
handle are the mutex-guarded ListenerState; runloop is the run loop current at
new(); osTapEnabled and sourceAdded describe the OS-level tap; loopRunning
maps each thread id to whether its run loop is currently running; spawned
lists the background threads spawned by start. -/
structure MacOSListener where
  selected_text : Option String
  event_tap : Option Unit
  runloop : ThreadId
  osTapEnabled : Bool
  sourceAdded : Option ThreadId
  loopRunning : ThreadId → Bool
  spawned : List ThreadId

/-- MacOSListener::new (lines 36-44): both ListenerState fields start None;
runloop is CFRunLoopGetCurrent() of the creating thread.  loops is the ambient
per-thread run-loop-running map at creation time. -/
def MacOSListener.new (t : ThreadId) (loops : ThreadId → Bool) : MacOSListener :=
  { selected_text := none
    event_tap := none
    runloop := t
    osTapEnabled := false
    sourceAdded := none
    loopRunning := loops
    spawned := [] }

/-- check_accessibility_permissions (lines 46-59): Ok iff AXIsProcessTrusted,
otherwise InitializationFailure. -/
def check_accessibility_permissions (env : MacEnv) : Except SelectionError Unit :=
  if env.trusted then Except.ok ()
  else Except.error (SelectionError.InitializationFailure "Accessibility permissions required")

/-- SelectionListener::start (lines 63-145): permission check first (propagated
with the question-mark operator), then CGEventTap creation (MonitoringError on
failure), then the handle is stored, the run-loop source is added to
self.runloop, and a background thread running CFRunLoopRun is spawned. -/
def MacOSListener.start (s : MacOSListener) (env : MacEnv) (fresh : ThreadId) :
    MacOSListener × Except SelectionError Unit :=
  match check_accessibility_permissions env with
  | Except.error e => (s, Except.error e)
  | Except.ok () =>
    if env.tapCreateOk then
      ({ s with event_tap := some ()
                osTapEnabled := true
                sourceAdded := some s.runloop
                loopRunning := setLoop s.loopRunning fresh true
                spawned := s.spawned ++ [fresh] },
       Except.ok ())
    else (s, Except.error (SelectionError.MonitoringError "Event tap creation failed"))

/-- SelectionListener::stop (lines 147-154): take the stored tap handle and
disable it when present, then CFRunLoop::get_current().stop() — the calling
thread's current run loop is the one asked to stop.  Always Ok. -/
def MacOSListener.stop (s : MacOSListener) (caller : ThreadId) :
    MacOSListener × Except SelectionError Unit :=
  ({ s with event_tap := none
            osTapEnabled := if s.event_tap.isSome then false else s.osTapEnabled
            loopRunning := setLoop s.loopRunning caller false },
   Except.ok ())

/-- SelectionListener::get_selection (lines 156-158): snapshot of the slot. -/
def MacOSListener.get_selection (s : MacOSListener) : Option String :=
  s.selected_text

/-- Operations that can act on a native-variant listener: a start call (with
its OS oracle and the id of the thread it would spawn), a stop call from a
given thread, and delivery of one tapped event to the callback. -/
inductive MacOp
  | start (env : MacEnv) (fresh : ThreadId)
  | stop (caller : ThreadId)
  | tapEvent (ev : AXEvent)
deriving DecidableEq

/-- A tapped event reaches the callback only when the run-loop source has been
added and the tap is enabled. -/
def deliver (s : MacOSListener) (ev : AXEvent) : MacOSListener :=
  if s.sourceAdded.isSome && s.osTapEnabled then
    { s with selected_text := nativeTapCallback ev s.selected_text }
  else s

def stepOp (s : MacOSListener) (op : MacOp) : MacOSListener :=
  match op with
  | MacOp.start env fresh => (s.start env fresh).1
  | MacOp.stop caller => (s.stop caller).1
  | MacOp.tapEvent ev => deliver s ev

def run (s : MacOSListener) (ops : List MacOp) : MacOSListener :=
  ops.foldl stepOp s

/-- The start paths of lines 63-145 succeed exactly when the process is
trusted and tap creation succeeds. -/
def startSucceeds : MacOp → Bool
  | MacOp.start env _ => env.trusted && env.tapCreateOk
  | _ => false

/-- Whether the operation is a start call at all. -/
def isStartOp : MacOp → Bool
  | MacOp.start _ _ => true
  | _ => false

end Native

/-- Oracle for the OS calls made by the rust-native macOS start: the trust
check, CGEventTap::new, and mach_port.create_runloop_source. -/
structure RustMacEnv where
  trusted : Bool
  tapCreateOk : Bool
  sourceCreateOk : Bool
deriving DecidableEq

/-- Result of the inherent (non-trait) rust-native start: Ok, a String error,
or a panic (the .expect call on run-loop-source creation). -/
inductive StartOutcome
  | ok
  | err (msg : String)
  | panicked (msg : String)
deriving DecidableEq

/-- Result of a trait-level start: Ok, a SelectionError, or a panic that
escaped to the caller. -/
inductive TraitOutcome
  | ok
  | err (e : SelectionError)
  | panicked (msg : String)
deriving DecidableEq

namespace RustNative

/-- MacOSListener of src/rust-native/src/platform/macos.rs plus the
process-level facts: state is the Arc-Mutex slot, runloop the run loop wrapped
at new(); the CGEventTap handle is a local of start (dropped when start
returns), so only the OS-level tap facts are tracked. -/
structure MacOSListener where
  state : Option String
  runloop : ThreadId
  osTapEnabled : Bool
  sourceAdded : Option ThreadId
  loopRunning : ThreadId → Bool
  spawned : List ThreadId

/-- MacOSListener::new (lines 22-27): state None, runloop = current loop of
the creating thread. -/
def MacOSListener.new (t : ThreadId) (loops : ThreadId → Bool) : MacOSListener :=
  { state := none
    runloop := t
    osTapEnabled := false
    sourceAdded := none
    loopRunning := loops
    spawned := [] }

/-- Inherent start (lines 40-78): trust check (Err String when untrusted),
CGEventTap::new (Err String on failure; a created tap is enabled at the OS
level), create_runloop_source with .expect (panic on failure, before the
source is added), then CFRunLoopAddSource on self.runloop, explicit enable,
and a spawned thread running CFRunLoopRun. -/
def MacOSListener.start (s : MacOSListener) (env : RustMacEnv) (fresh : ThreadId) :
    MacOSListener × StartOutcome :=
  if !env.trusted then (s, StartOutcome.err "Accessibility permissions required")
  else if !env.tapCreateOk then (s, StartOutcome.err "Failed to create event tap")
  else if !env.sourceCreateOk then
    ({ s with osTapEnabled := true }, StartOutcome.panicked "Failed to create run loop source")
  else
    ({ s with osTapEnabled := true
              sourceAdded := some s.runloop
              loopRunning := setLoop s.loopRunning fresh true
              spawned := s.spawned ++ [fresh] },
     StartOutcome.ok)

/-- SelectionListener::start (lines 135-137): the inherent start's error is
wrapped as SelectionError::MonitoringError; a panic propagates. -/
def MacOSListener.traitStart (s : MacOSListener) (env : RustMacEnv) (fresh : ThreadId) :
    MacOSListener × TraitOutcome :=
  match s.start env fresh with
  | (s', StartOutcome.ok) => (s', TraitOutcome.ok)
  | (s', StartOutcome.err e) => (s', TraitOutcome.err (SelectionError.MonitoringError e))
  | (s', StartOutcome.panicked m) => (s', TraitOutcome.panicked m)

/-- Inherent stop (lines 81-83): CFRunLoop::get_current().stop() — the calling
thread's current run loop; the tap is not touched. -/
def MacOSListener.stop (s : MacOSListener) (caller : ThreadId) : MacOSListener :=
  { s with loopRunning := setLoop s.loopRunning caller false }

/-- SelectionListener::stop (lines 139-142): calls the inherent stop, Ok. -/
def MacOSListener.traitStop (s : MacOSListener) (caller : ThreadId) :
    MacOSListener × Except SelectionError Unit :=
  (s.stop caller, Except.ok ())

/-- get_selection (lines 86-88): clone of the slot under the lock. -/
def MacOSListener.get_selection (s : MacOSListener) : Option String :=
  s.state

inductive MacOp
  | start (env : RustMacEnv) (fresh : ThreadId)
  | stop (caller : ThreadId)
  | tapEvent (ev : AXEvent)
deriving DecidableEq

/-- A tapped event reaches the callback only when the run-loop source has been
added and the tap is enabled. -/
def deliver (s : MacOSListener) (ev : AXEvent) : MacOSListener :=
  if s.sourceAdded.isSome && s.osTapEnabled then
    { s with state := rustTapCallback ev s.state }
  else s

def stepOp (s : MacOSListener) (op : MacOp) : MacOSListener :=
  match op with
  | MacOp.start env fresh => (s.traitStart env fresh).1
  | MacOp.stop caller => (s.traitStop caller).1
  | MacOp.tapEvent ev => deliver s ev

def run (s : MacOSListener) (ops : List MacOp) : MacOSListener :=
  ops.foldl stepOp s

def startSucceeds : MacOp → Bool
  | MacOp.start env _ => env.trusted && env.tapCreateOk && env.sourceCreateOk
  | _ => false

def isStartOp : MacOp → Bool
  | MacOp.start _ _ => true
  | _ => false

end RustNative

/-- Oracle for the OS calls made inside the Windows background thread:
CoInitializeEx and CoCreateInstance of CUIAutomation. -/
structure WinEnv where
  comInitOk : Bool
  coCreateOk : Bool
deriving DecidableEq

/-- Program position of a spawned Windows background thread.  comPhase: about
to run CoInitializeEx and CoCreateInstance (each followed by .unwrap, so a
failure panics the thread); pollLoop: the sleep-and-check-stop-flag loop; a
thread leaving the loop uninitializes COM and exits. -/
inductive WinThreadPhase
  | comPhase
  | pollLoop
  | exited
  | panicked
deriving DecidableEq

structure WinBgThread where
  env : WinEnv
  phase : WinThreadPhase
deriving DecidableEq

namespace Win

/-- WindowsListener of src/rust-native/src/platform/windows.rs lines 16-20,
plus the list of background threads spawned by start_impl.  The automation
field is declared Option and is never assigned anywhere. -/
structure WindowsListener where
  automation : Option Unit
  state : Option String
  stop_flag : Bool
  threads : List WinBgThread
deriving DecidableEq

/-- WindowsListener::new (lines 23-29): automation None, state None,
stop_flag false. -/
def WindowsListener.new : WindowsListener :=
  { automation := none, state := none, stop_flag := false, threads := [] }

/-- start_impl (lines 31-57): spawns the background thread and returns Ok
unconditionally on the caller's thread; all COM work happens inside the
spawned thread. -/
def WindowsListener.start_impl (s : WindowsListener) (env : WinEnv) :
    WindowsListener × Except String Unit :=
  ({ s with threads := s.threads ++ [{ env := env, phase := WinThreadPhase.comPhase }] },
   Except.ok ())

/-- One scheduling step of a background thread (the body of the closure at
lines 35-54), given the current value of the shared stop flag.  In comPhase a
failing CoInitializeEx or CoCreateInstance panics via .unwrap; otherwise the
thread enters the poll loop, which exits when the stop flag is set.  No branch
touches the shared selection state. -/
def bgThreadStep (flag : Bool) (t : WinBgThread) : WinBgThread :=
  match t.phase with
  | WinThreadPhase.comPhase =>
    if !t.env.comInitOk then { t with phase := WinThreadPhase.panicked }
    else if !t.env.coCreateOk then { t with phase := WinThreadPhase.panicked }
    else { t with phase := WinThreadPhase.pollLoop }
  | WinThreadPhase.pollLoop =>
    if flag then { t with phase := WinThreadPhase.exited } else t
  | p => { t with phase := p }

/-- stop_impl (lines 59-61): set the shared stop flag. -/
def WindowsListener.stop_impl (s : WindowsListener) : WindowsListener :=
  { s with stop_flag := true }

/-- get_selection (lines 63-65): clone of the slot under the lock. -/
def WindowsListener.get_selection (s : WindowsListener) : Option String :=
  s.state

/-- SelectionListener::start (lines 69-72): start_impl's String error would
be wrapped as MonitoringError (start_impl never errs). -/
def WindowsListener.traitStart (s : WindowsListener) (env : WinEnv) :
    WindowsListener × Except SelectionError Unit :=
  match s.start_impl env with
  | (s', Except.ok ()) => (s', Except.ok ())
  | (s', Except.error e) => (s', Except.error (SelectionError.MonitoringError e))

/-- SelectionListener::stop (lines 74-77): stop_impl then Ok. -/
def WindowsListener.traitStop (s : WindowsListener) :
    WindowsListener × Except SelectionError Unit :=
  (s.stop_impl, Except.ok ())

/-- In-place update of the i-th background thread. -/
def modifyAt (l : List WinBgThread) (i : Nat) (f : WinBgThread → WinBgThread) :
    List WinBgThread :=
  match l, i with
  | [], _ => []
  | x :: xs, 0 => f x :: xs
  | x :: xs, Nat.succ j => x :: modifyAt xs j f

/-- Operations on a Windows listener: a start call, a stop call, and one
scheduling step of the i-th background thread. -/
inductive WinOp
  | start (env : WinEnv)
  | stop
  | bg (i : Nat)
deriving DecidableEq

def stepOp (s : WindowsListener) (op : WinOp) : WindowsListener :=
  match op with
  | WinOp.start env => (s.traitStart env).1
  | WinOp.stop => s.stop_impl
  | WinOp.bg i => { s with threads := modifyAt s.threads i (bgThreadStep s.stop_flag) }

def run (s : WindowsListener) (ops : List WinOp) : WindowsListener :=
  ops.foldl stepOp s

/-- Whether the operation is a start call. -/
def isStartOp : WinOp → Bool
  | WinOp.start _ => true
  | _ => false

end Win

namespace SharedState

/-!
Interleaving model of the shared selection slot.  In every variant the slot is
an Arc-Mutex Option String: the capture callback performs
  state.lock() ; *slot = Some(text) ; unlock
and get_selection performs
  state.lock() ; slot.clone() ; unlock.
To make a torn read expressible, the store of Some(text) is split into its two
machine-level parts: the discriminant (tag) and the payload.  The writer holds
the lock across both parts; a reader holds the lock across its read.  The
pending list holds the texts the callback will write, in order; completed
records the writes whose critical section has finished, in lock order;
observed records every value a reader returned.
-/

/-- Who can own the mutex. -/
inductive Owner
  | writerThread
  | readerThread (i : Nat)
deriving DecidableEq

structure Conf where
  lock : Option Owner
  tag : Bool
  payload : String
  wpc : Nat
  pending : List String
  completed : List String
  rpc : Nat → Nat
  observed : List (Option String)

/-- The Option String value currently materialized in the slot. -/
def slotVal (c : Conf) : Option String :=
  if c.tag then some c.payload else none

/-- Initial configuration: slot is None (new() stores None), nothing written,
nothing observed; pend is the schedule of texts the callback will write. -/
def initConf (pend : List String) : Conf :=
  { lock := none
    tag := false
    payload := ""
    wpc := 0
    pending := pend
    completed := []
    rpc := fun _ => 0
    observed := [] }

/-- One interleaving step.  Writer program counter: 0 idle, 1 lock held,
2 tag stored, 3 payload stored.  Reader i program counter: 0 idle, 1 lock
held, 2 value read. -/
inductive Step : Conf → Conf → Prop
  | wAcquire (c : Conf) (v : String) (rest : List String) :
      c.lock = none → c.wpc = 0 → c.pending = v :: rest →
      Step c { c with lock := some Owner.writerThread, wpc := 1 }
  | wStoreTag (c : Conf) :
      c.wpc = 1 →
      Step c { c with tag := true, wpc := 2 }
  | wStorePayload (c : Conf) (v : String) (rest : List String) :
      c.wpc = 2 → c.pending = v :: rest →
      Step c { c with payload := v, wpc := 3 }
  | wRelease (c : Conf) (v : String) (rest : List String) :
      c.wpc = 3 → c.pending = v :: rest →
      Step c { c with lock := none, wpc := 0, pending := rest,
                      completed := c.completed ++ [v] }
  | rAcquire (c : Conf) (i : Nat) :
      c.lock = none → c.rpc i = 0 →
      Step c { c with lock := some (Owner.readerThread i), rpc := updNat c.rpc i 1 }
  | rRead (c : Conf) (i : Nat) :
      c.lock = some (Owner.readerThread i) → c.rpc i = 1 →
      Step c { c with observed := slotVal c :: c.observed, rpc := updNat c.rpc i 2 }
  | rRelease (c : Conf) (i : Nat) :
      c.lock = some (Owner.readerThread i) → c.rpc i = 2 →
      Step c { c with lock := none, rpc := updNat c.rpc i 0 }

/-- Configurations reachable from the initial one by interleaving steps. -/
inductive Reachable (pend : List String) : Conf → Prop
  | refl : Reachable pend (initConf pend)
  | step {c c' : Conf} : Reachable pend c → Step c c' → Reachable pend c'

/-- The slot holds a value some completed write put there, or the initial
None. -/
def SlotOk (c : Conf) : Prop :=
  slotVal c = none ∨ slotVal c ∈ c.completed.map some

/-- Inductive invariant: the lock is held by the writer whenever it is
mid-write; outside the writer's critical section the slot is consistent; at
wpc 2 and 3 the tag has been stored, and at wpc 3 the payload equals the head
of pending; everything ever observed is the initial None or a completed
write. -/
def Inv (c : Conf) : Prop :=
  (c.wpc ≠ 0 → c.lock = some Owner.writerThread) ∧
  ((c.wpc = 0 ∨ c.wpc = 1) → SlotOk c) ∧
  ((c.wpc = 2 ∨ c.wpc = 3) → c.tag = true) ∧
  (c.wpc = 3 → ∃ rest, c.pending = c.payload :: rest) ∧
  (∀ v ∈ c.observed, v = none ∨ v ∈ c.completed.map some)

/-- Final configuration of the concrete execution used to witness the
no-torn-read theorem: one complete write of "hi" followed by one complete
read. -/
def witnessConf : Conf :=
  { lock := some (Owner.readerThread 0)
    tag := true
    payload := "hi"
    wpc := 0
    pending := []
    completed := ["hi"]
    rpc := updNat (updNat (fun _ => 0) 0 1) 0 2
    observed := [some "hi"] }

end SharedState

theorem setLoop_idem (f : ThreadId → Bool) (t : ThreadId) (b : Bool) :
    setLoop (setLoop f t b) t b = setLoop f t b := by
  funext u
  by_cases h : u = t <;> simp [setLoop, h]

namespace Native

theorem stepOp_no_start (s : MacOSListener) (op : MacOp)
    (hs : s.selected_text = none) (ha : s.sourceAdded = none)
    (hop : startSucceeds op = false) :
    (stepOp s op).selected_text = none ∧ (stepOp s op).sourceAdded = none := by
  cases op with
  | start env fresh =>
    simp only [startSucceeds, Bool.and_eq_false_iff] at hop
    cases htr : env.trusted with
    | false =>
      simp [stepOp, MacOSListener.start, check_accessibility_permissions, htr, hs, ha]
    | true =>
      have htap : env.tapCreateOk = false := by
        rcases hop with h | h
        · rw [htr] at h; exact absurd h (by simp)
        · exact h
      simp [stepOp, MacOSListener.start, check_accessibility_permissions, htr, htap, hs, ha]
  | stop caller =>
    simp [stepOp, MacOSListener.stop, hs, ha]
  | tapEvent ev =>
    simp [stepOp, deliver, ha, hs]

theorem run_no_successful_start (ops : List MacOp) :
    ∀ s : MacOSListener, s.selected_text = none → s.sourceAdded = none →
    (∀ op ∈ ops, startSucceeds op = false) →
    (run s ops).selected_text = none ∧ (run s ops).sourceAdded = none := by
  induction ops with
  | nil => intro s h1 h2 _; exact ⟨h1, h2⟩
  | cons op rest ih =>
    intro s h1 h2 hall
    have hop := hall op (List.mem_cons_self op rest)
    have hstep := stepOp_no_start s op h1 h2 hop
    have hrest : ∀ o ∈ rest, startSucceeds o = false :=
      fun o ho => hall o (List.mem_cons_of_mem op ho)
    exact ih (stepOp s op) hstep.1 hstep.2 hrest

theorem run_no_start_tap (ops : List MacOp) :
    ∀ s : MacOSListener, s.event_tap = none →
    (∀ op ∈ ops, isStartOp op = false) →
    (run s ops).event_tap = none := by
  induction ops with
  | nil => intro s h1 _; exact h1
  | cons op rest ih =>
    intro s h1 hall
    have hop := hall op (List.mem_cons_self op rest)
    have hrest : ∀ o ∈ rest, isStartOp o = false :=
      fun o ho => hall o (List.mem_cons_of_mem op ho)
    have hstep : (stepOp s op).event_tap = none := by
      cases op with
      | start env fresh => exact absurd hop (by simp [isStartOp])
      | stop caller => simp [stepOp, MacOSListener.stop]
      | tapEvent ev =>
        simp only [stepOp, deliver]
        split <;> simp [h1]
    exact ih (stepOp s op) hstep hrest

end Native

namespace RustNative

theorem stepOp_no_start_rn (s : MacOSListener) (op : MacOp)
    (hs : s.state = none) (ha : s.sourceAdded = none)
    (hop : startSucceeds op = false) :
    (stepOp s op).state = none ∧ (stepOp s op).sourceAdded = none := by
  cases op with
  | start env fresh =>
    cases htr : env.trusted with
    | false =>
      simp [stepOp, MacOSListener.traitStart, MacOSListener.start, htr, hs, ha]
    | true =>
      cases htap : env.tapCreateOk with
      | false =>
        simp [stepOp, MacOSListener.traitStart, MacOSListener.start, htr, htap, hs, ha]
      | true =>
        have hsrc : env.sourceCreateOk = false := by
          simp [startSucceeds, htr, htap] at hop
          exact hop
        simp [stepOp, MacOSListener.traitStart, MacOSListener.start, htr, htap, hsrc, hs, ha]
  | stop caller =>
    simp [stepOp, MacOSListener.traitStop, MacOSListener.stop, hs, ha]
  | tapEvent ev =>
    simp only [stepOp, deliver]
    split
    · next h => rw [ha] at h; simp at h
    · exact ⟨hs, ha⟩

theorem run_no_successful_start_rn (ops : List MacOp) :
    ∀ s : MacOSListener, s.state = none → s.sourceAdded = none →
    (∀ op ∈ ops, startSucceeds op = false) →
    (run s ops).state = none ∧ (run s ops).sourceAdded = none := by
  induction ops with
  | nil => intro s h1 h2 _; exact ⟨h1, h2⟩
  | cons op rest ih =>
    intro s h1 h2 hall
    have hop := hall op (List.mem_cons_self op rest)
    have hstep := stepOp_no_start_rn s op h1 h2 hop
    have hrest : ∀ o ∈ rest, startSucceeds o = false :=
      fun o ho => hall o (List.mem_cons_of_mem op ho)
    exact ih (stepOp s op) hstep.1 hstep.2 hrest

end RustNative

namespace Win

theorem stepOp_state (s : WindowsListener) (op : WinOp) :
    (stepOp s op).state = s.state := by
  cases op with
  | start env => simp [stepOp, WindowsListener.traitStart, WindowsListener.start_impl]
  | stop => simp [stepOp, WindowsListener.stop_impl]
  | bg i => simp [stepOp]

theorem run_state (ops : List WinOp) :
    ∀ s : WindowsListener, (run s ops).state = s.state := by
  induction ops with
  | nil => intro s; rfl
  | cons op rest ih =>
    intro s
    have h := ih (stepOp s op)
    calc (run (stepOp s op) rest).state = (stepOp s op).state := h
    _ = s.state := stepOp_state s op

end Win

namespace SharedState

theorem initInv (pend : List String) : Inv (initConf pend) := by
  refine ⟨?_, ?_, ?_, ?_, ?_⟩ <;> simp [initConf, SlotOk, slotVal]

theorem stepInv {c c' : Conf} (h : Step c c') (hi : Inv c) : Inv c' := by
  obtain ⟨h1, h2, h3, h4, h5⟩ := hi
  cases h with
  | wAcquire v rest hl hw hp =>
    refine ⟨?_, ?_, ?_, ?_, ?_⟩ <;> simp_all [SlotOk, slotVal]
  | wStoreTag hw =>
    refine ⟨?_, ?_, ?_, ?_, ?_⟩ <;> simp_all [SlotOk, slotVal]
  | wStorePayload v rest hw hp =>
    refine ⟨?_, ?_, ?_, ?_, ?_⟩ <;> simp_all [SlotOk, slotVal]
  | wRelease v rest hw hp =>
    refine ⟨?_, ?_, ?_, ?_, ?_⟩
    · simp
    · intro _
      have htag : c.tag = true := h3 (Or.inr hw)
      obtain ⟨rest', hp'⟩ := h4 hw
      have hv : c.payload = v := by
        rw [hp'] at hp
        exact (List.cons.injEq _ _ _ _ ▸ hp).1
      simp [SlotOk, slotVal, htag, hv]
    · simp
    · simp
    · intro w hw'
      rcases h5 w hw' with h | h
      · exact Or.inl h
      · right
        simp only [List.map_append, List.mem_append]
        exact Or.inl h
  | rAcquire i hl hr =>
    have hw0 : c.wpc = 0 := by
      by_contra hne
      rw [h1 hne] at hl
      exact Option.noConfusion hl
    refine ⟨?_, ?_, ?_, ?_, ?_⟩ <;> simp_all [SlotOk, slotVal]
  | rRead i hl hr =>
    have hw0 : c.wpc = 0 := by
      by_contra hne
      rw [h1 hne] at hl
      exact Owner.noConfusion (Option.some.injEq _ _ ▸ hl)
    have hs := h2 (Or.inl hw0)
    refine ⟨?_, ?_, ?_, ?_, ?_⟩
    · intro hne; exact absurd hw0 (by simp_all)
    · intro _; exact hs
    · intro hh; rw [hw0] at hh; rcases hh with hh | hh <;> exact absurd hh (by simp)
    · intro hh; rw [hw0] at hh; exact absurd hh (by simp)
    · intro w hw'
      simp only [List.mem_cons] at hw'
      rcases hw' with hw' | hw'
      · subst hw'
        rcases hs with h | h
        · exact Or.inl h
        · exact Or.inr h
      · exact h5 w hw'
  | rRelease i hl hr =>
    have hw0 : c.wpc = 0 := by
      by_contra hne
      rw [h1 hne] at hl
      exact Owner.noConfusion (Option.some.injEq _ _ ▸ hl)
    refine ⟨?_, ?_, ?_, ?_, ?_⟩ <;> simp_all [SlotOk, slotVal]

theorem reachableInv {pend : List String} {c : Conf} (h : Reachable pend c) : Inv c := by
  induction h with
  | refl => exact initInv pend
  | step _ hs ih => exact stepInv hs ih

end SharedState

/-- C10: for the Windows listener, the background thread spawned by start()
never writes to the shared selection state (no event handler is ever
registered and no capture path exists), so over every sequence of start, stop
and background scheduling steps, get_selection always returns None. -/
theorem c10_windows_selection_always_none (ops : List Win.WinOp) :
    (Win.run Win.WindowsListener.new ops).get_selection = none := by
  show (Win.run Win.WindowsListener.new ops).state = none
  rw [Win.run_state]
  rfl

/-- C9: stop() never modifies the stored selection value: in every variant and
from every state, get_selection immediately after stop returns exactly the
value it returned immediately before (the last-known-value-retained policy). -/
theorem c9_stop_preserves_selection (sN : Native.MacOSListener)
    (sR : RustNative.MacOSListener) (sW : Win.WindowsListener) (caller : ThreadId) :
    ((sN.stop caller).1).get_selection = sN.get_selection ∧
    ((sR.traitStop caller).1).get_selection = sR.get_selection ∧
    (sW.traitStop).1.get_selection = sW.get_selection :=
  ⟨rfl, rfl, rfl⟩

/-- C6: stop() is idempotent: from every state and every prior history, a
second stop in succession returns Ok and leaves the instance in exactly the
state produced by the first stop, in every variant. -/
theorem c6_stop_idempotent (sN : Native.MacOSListener)
    (sR : RustNative.MacOSListener) (sW : Win.WindowsListener) (caller : ThreadId) :
    ((sN.stop caller).1.stop caller).2 = Except.ok () ∧
    ((sN.stop caller).1.stop caller).1 = (sN.stop caller).1 ∧
    ((sR.traitStop caller).1.traitStop caller).2 = Except.ok () ∧
    ((sR.traitStop caller).1.traitStop caller).1 = (sR.traitStop caller).1 ∧
    (sW.traitStop.1.traitStop).2 = Except.ok () ∧
    (sW.traitStop.1.traitStop).1 = sW.traitStop.1 := by
  refine ⟨rfl, ?_, rfl, ?_, rfl, rfl⟩
  · simp [Native.MacOSListener.stop, setLoop_idem]
  · simp [RustNative.MacOSListener.traitStop, RustNative.MacOSListener.stop, setLoop_idem]

/-- C4: for every event observed by the capture callback (both macOS
variants), if the focused-element query or the selected-text query fails the
slot keeps exactly its previous value, and the slot is written (with the
captured text) only when the full capture succeeds; no error is surfaced
either way. -/
theorem c4_callback_silent_skip (ev : AXEvent) (st : Option String) :
    rustTapCallback ev st = (if captureOk ev then some ev.selText else st) ∧
    nativeTapCallback ev st = (if captureOk ev then some ev.selText else st) := by
  by_cases hf : ev.focusedCode = 0 <;> cases hn : ev.focusedNull <;>
    by_cases hsc : ev.selCode = 0 <;> cases hsn : ev.selNull <;>
    simp [rustTapCallback, nativeTapCallback, get_selected_text, captureOk, hf, hn, hsc, hsn]

/-- C2 (failing-input evaluation): with the trust check reporting untrusted,
the native-variant start returns InitializationFailure immediately with the
listener and process state fully unchanged (no tap registered, no thread
spawned) — but the rust-native trait start returns the error wrapped as
MonitoringError, not InitializationFailure, also with state unchanged. -/
theorem c2_untrusted_start_evaluation :
    ((Native.MacOSListener.new 0 (fun _ => false)).start
        { trusted := false, tapCreateOk := true } 1).2
      = Except.error (SelectionError.InitializationFailure "Accessibility permissions required") ∧
    ((Native.MacOSListener.new 0 (fun _ => false)).start
        { trusted := false, tapCreateOk := true } 1).1
      = Native.MacOSListener.new 0 (fun _ => false) ∧
    ((RustNative.MacOSListener.new 0 (fun _ => false)).traitStart
        { trusted := false, tapCreateOk := true, sourceCreateOk := true } 1).2
      = TraitOutcome.err (SelectionError.MonitoringError "Accessibility permissions required") ∧
    ((RustNative.MacOSListener.new 0 (fun _ => false)).traitStart
        { trusted := false, tapCreateOk := true, sourceCreateOk := true } 1).1
      = RustNative.MacOSListener.new 0 (fun _ => false) ∧
    SelectionError.MonitoringError "Accessibility permissions required"
      ≠ SelectionError.InitializationFailure "Accessibility permissions required" :=
  ⟨rfl, rfl, rfl, rfl, by decide⟩

/-- C3 (failing-input evaluation): when COM apartment initialization fails,
the Windows start still returns Ok synchronously on the caller's thread; the
failure is not surfaced as the Err of start but panics the spawned background
thread at its first scheduling step (the .unwrap on CoInitializeEx). -/
theorem c3_windows_setup_failure_not_synchronous :
    (Win.WindowsListener.new.traitStart { comInitOk := false, coCreateOk := true }).2
      = Except.ok () ∧
    (Win.run Win.WindowsListener.new
        [Win.WinOp.start { comInitOk := false, coCreateOk := true }, Win.WinOp.bg 0]).threads
      = [{ env := { comInitOk := false, coCreateOk := true },
           phase := WinThreadPhase.panicked }] :=
  ⟨rfl, rfl⟩

/-- C7 (failing-input evaluation): listener created and started on thread 0
with spawned run-loop thread 1; stop() called from thread 0.  The native stop
does disable the tap, but both variants stop CFRunLoopGetCurrent of the
calling thread: the caller's loop flag goes false while the spawned thread's
loop flag is untouched (no termination request reaches the background loop);
the rust-native stop moreover leaves the event tap enabled. -/
theorem c7_stop_targets_caller_loop :
    (((Native.MacOSListener.new 0 (fun u => u == 0)).start
        { trusted := true, tapCreateOk := true } 1).1.stop 0).1.loopRunning 1
      = ((Native.MacOSListener.new 0 (fun u => u == 0)).start
        { trusted := true, tapCreateOk := true } 1).1.loopRunning 1 ∧
    ((Native.MacOSListener.new 0 (fun u => u == 0)).start
        { trusted := true, tapCreateOk := true } 1).1.loopRunning 1 = true ∧
    (((Native.MacOSListener.new 0 (fun u => u == 0)).start
        { trusted := true, tapCreateOk := true } 1).1.stop 0).1.loopRunning 0 = false ∧
    (((Native.MacOSListener.new 0 (fun u => u == 0)).start
        { trusted := true, tapCreateOk := true } 1).1.stop 0).1.osTapEnabled = false ∧
    (((RustNative.MacOSListener.new 0 (fun u => u == 0)).traitStart
        { trusted := true, tapCreateOk := true, sourceCreateOk := true } 1).1.traitStop 0).1.osTapEnabled
      = true ∧
    (((RustNative.MacOSListener.new 0 (fun u => u == 0)).traitStart
        { trusted := true, tapCreateOk := true, sourceCreateOk := true } 1).1.traitStop 0).1.loopRunning 1
      = true :=
  ⟨rfl, rfl, rfl, rfl, rfl, rfl⟩

/-- C5 counterexample: a freshly created native-variant listener on which
start was never called, with the calling thread's run loop running.  stop()
returns Ok but is not free of observable side effects: it requests
termination of the caller's current run loop, whose running flag flips from
true to false. -/
theorem c5_counterexample :
    ((Native.MacOSListener.new 0 (fun u => u == 0)).stop 0).2 = Except.ok () ∧
    (Native.MacOSListener.new 0 (fun u => u == 0)).loopRunning 0 = true ∧
    ((Native.MacOSListener.new 0 (fun u => u == 0)).stop 0).1.loopRunning 0 = false :=
  ⟨rfl, rfl, rfl⟩

/-- C1: for every listener instance, on every modelled platform variant,
get_selection returns None before any successful start: over any operation
history containing no successful start call (a fresh instance, failed starts,
stops, stray events), the selection is None. -/
theorem c1_selection_none_before_successful_start (t : ThreadId) (L : ThreadId → Bool)
    (opsN : List Native.MacOp) (opsR : List RustNative.MacOp) (opsW : List Win.WinOp)
    (hN : ∀ op ∈ opsN, Native.startSucceeds op = false)
    (hR : ∀ op ∈ opsR, RustNative.startSucceeds op = false) :
    (Native.run (Native.MacOSListener.new t L) opsN).get_selection = none ∧
    (RustNative.run (RustNative.MacOSListener.new t L) opsR).get_selection = none ∧
    (Win.run Win.WindowsListener.new opsW).get_selection = none := by
  refine ⟨?_, ?_, ?_⟩
  · exact (Native.run_no_successful_start opsN _ rfl rfl hN).1
  · exact (RustNative.run_no_successful_start_rn opsR _ rfl rfl hR).1
  · show (Win.run Win.WindowsListener.new opsW).state = none
    rw [Win.run_state]
    rfl

/-- Witness for C1 at a concrete history: an untrusted start attempt, a stop,
and a stray tap event on the native variant; a start that panics on run-loop
source creation on the rust-native variant; a start, one background step and a
stop on the Windows variant. -/
theorem c1_witness :
    (Native.run (Native.MacOSListener.new 0 (fun _ => false))
        [Native.MacOp.start { trusted := false, tapCreateOk := true } 1,
         Native.MacOp.stop 0,
         Native.MacOp.tapEvent { focusedCode := 0, focusedNull := false,
                                 selCode := 0, selNull := false, selText := "text" }]).get_selection
      = none ∧
    (RustNative.run (RustNative.MacOSListener.new 0 (fun _ => false))
        [RustNative.MacOp.start { trusted := true, tapCreateOk := true, sourceCreateOk := false } 1]).get_selection
      = none ∧
    (Win.run Win.WindowsListener.new
        [Win.WinOp.start { comInitOk := true, coCreateOk := true },
         Win.WinOp.bg 0, Win.WinOp.stop]).get_selection = none :=
  c1_selection_none_before_successful_start 0 (fun _ => false)
    [Native.MacOp.start { trusted := false, tapCreateOk := true } 1,
     Native.MacOp.stop 0,
     Native.MacOp.tapEvent { focusedCode := 0, focusedNull := false,
                             selCode := 0, selNull := false, selText := "text" }]
    [RustNative.MacOp.start { trusted := true, tapCreateOk := true, sourceCreateOk := false } 1]
    [Win.WinOp.start { comInitOk := true, coCreateOk := true },
     Win.WinOp.bg 0, Win.WinOp.stop]
    (by decide) (by decide)

/-- C5 amended: for every listener instance on which start was never called,
stop() returns Ok and leaves the stored selection (and every other listener
field) unchanged, except that the macOS variants request termination of the
calling thread's current run loop (only the caller's loop flag is updated)
and the Windows variant sets its internal stop flag. -/
theorem c5_stop_without_start_amended (t caller : ThreadId) (L : ThreadId → Bool)
    (opsN : List Native.MacOp) (opsR : List RustNative.MacOp) (opsW : List Win.WinOp)
    (hN : ∀ op ∈ opsN, Native.isStartOp op = false)
    (_hR : ∀ op ∈ opsR, RustNative.isStartOp op = false)
    (_hW : ∀ op ∈ opsW, Win.isStartOp op = false) :
    ((Native.run (Native.MacOSListener.new t L) opsN).stop caller).2 = Except.ok () ∧
    ((Native.run (Native.MacOSListener.new t L) opsN).stop caller).1
      = { Native.run (Native.MacOSListener.new t L) opsN with
          loopRunning := setLoop (Native.run (Native.MacOSListener.new t L) opsN).loopRunning
            caller false } ∧
    ((RustNative.run (RustNative.MacOSListener.new t L) opsR).traitStop caller).2
      = Except.ok () ∧
    ((RustNative.run (RustNative.MacOSListener.new t L) opsR).traitStop caller).1
      = { RustNative.run (RustNative.MacOSListener.new t L) opsR with
          loopRunning := setLoop (RustNative.run (RustNative.MacOSListener.new t L) opsR).loopRunning
            caller false } ∧
    ((Win.run Win.WindowsListener.new opsW).traitStop).2 = Except.ok () ∧
    ((Win.run Win.WindowsListener.new opsW).traitStop).1
      = { Win.run Win.WindowsListener.new opsW with stop_flag := true } := by
  have htap : (Native.run (Native.MacOSListener.new t L) opsN).event_tap = none :=
    Native.run_no_start_tap opsN _ rfl hN
  refine ⟨rfl, ?_, rfl, rfl, rfl, rfl⟩
  simp [Native.MacOSListener.stop, htap]

/-- Witness for C5 at a concrete never-started history: a stop from thread 2
on the native instance, empty histories on the others, then stop from
thread 0. -/
theorem c5_witness :
    ((Native.run (Native.MacOSListener.new 0 (fun u => u == 0))
        [Native.MacOp.stop 2]).stop 0).2 = Except.ok () :=
  (c5_stop_without_start_amended 0 0 (fun u => u == 0)
    [Native.MacOp.stop 2] [] [] (by decide) (by decide) (by decide)).1

/-- C8: writes to the shared selection slot are totally ordered by the mutex
(the completed list records them in lock-release order), and every value any
concurrent reader ever obtains from get_selection is either the initial None
or exactly the value of some completed write — never a torn mixture of the
discriminant of one store and the payload of another. -/
theorem c8_no_torn_reads (pend : List String) (c : SharedState.Conf)
    (h : SharedState.Reachable pend c) :
    ∀ v ∈ c.observed, v = none ∨ v ∈ c.completed.map some :=
  (SharedState.reachableInv h).2.2.2.2

/-- Witness for C8: a concrete interleaving in which the writer completes one
write of "hi" and a reader then reads it; the value the reader observed is a
completed write. -/
theorem c8_witness :
    (some "hi" : Option String) = none ∨
      some "hi" ∈ SharedState.witnessConf.completed.map some := by
  have h0 : SharedState.Reachable ["hi"] (SharedState.initConf ["hi"]) :=
    SharedState.Reachable.refl
  have h1 := SharedState.Reachable.step h0
    (SharedState.Step.wAcquire _ "hi" [] rfl rfl rfl)
  have h2 := SharedState.Reachable.step h1 (SharedState.Step.wStoreTag _ rfl)
  have h3 := SharedState.Reachable.step h2
    (SharedState.Step.wStorePayload _ "hi" [] rfl rfl)
  have h4 := SharedState.Reachable.step h3
    (SharedState.Step.wRelease _ "hi" [] rfl rfl)
  have h5 := SharedState.Reachable.step h4 (SharedState.Step.rAcquire _ 0 rfl rfl)
  have h6 : SharedState.Reachable ["hi"] SharedState.witnessConf :=
    SharedState.Reachable.step h5 (SharedState.Step.rRead _ 0 rfl rfl)
  exact c8_no_torn_reads ["hi"] SharedState.witnessConf h6 (some "hi") (by decide)
